import Mathlib

/-!
Verification of the chrome-mcp-bridge relay core (the MCP server process):
connection/authentication lifecycle and request correlation, shallowly
embedded from the TypeScript source.  Stateful handlers are modelled as
pure functions from a relay state and an event to the next relay state
together with a list of observable effects (socket sends, socket closes,
promise resolutions/rejections, timer creation/cancellation, log lines).
The event loop is single threaded, so each handler runs atomically.
-/

namespace Bridge

/-- Connection identifier standing for one WebSocket object `ws`. -/
abbrev ConnId := Nat

/-- Association-list lookup, modelling JavaScript `Map.prototype.get`. -/
def lookupA {α β : Type} [DecidableEq α] (k : α) : List (α × β) → Option β
  | [] => none
  | (k', v) :: rest => if k' = k then some v else lookupA k rest

/-- Association-list update, modelling `Map.prototype.set`: replaces the
entry in place when the key is present, appends it otherwise. -/
def setA {α β : Type} [DecidableEq α] (k : α) (v : β) : List (α × β) → List (α × β)
  | [] => [(k, v)]
  | (k', v') :: rest => if k' = k then (k, v) :: rest else (k', v') :: setA k v rest

/-- Association-list removal, modelling `Map.prototype.delete`. -/
def eraseA {α β : Type} [DecidableEq α] (k : α) : List (α × β) → List (α × β)
  | [] => []
  | (k', v') :: rest => if k' = k then rest else (k', v') :: eraseA k rest

/-- Per-connection state: the `authenticated` closure variable of the
`wss.on("connection")` handler, and the socket's transport ready state
(`WebSocket` numeric constants; OPEN = 1). -/
structure ConnInfo where
  authenticated : Bool
  readyState : Nat
  deriving DecidableEq, Repr

/-- The `WebSocket.OPEN` ready-state constant. -/
def OPEN : Nat := 1

/-- One entry of the `pendingRequests` map: the stored continuation pair is
identified by the caller (promise) it completes, together with the
`timeoutId` that the wrapped resolve/reject clears. -/
structure PendingEntry where
  caller : Nat
  timeoutId : Nat
  deriving DecidableEq, Repr

/-- Relay process state: the module-level mutable variables
`extensionSocket` and `pendingRequests`, plus the per-connection
closure states. -/
structure RelayState where
  extensionSocket : Option ConnId
  conns : List (ConnId × ConnInfo)
  pendingRequests : List (String × PendingEntry)
  deriving DecidableEq, Repr

/-- Messages the relay writes to a peer socket. -/
inductive OutMsg : Type where
  | authResponse (success : Bool) (message : String)
  | errorMsg (message : String)
  | command (id : String) (command : String) (params : String)
  deriving DecidableEq, Repr

/-- Observable effects of one handler run. -/
inductive Effect : Type where
  | send (c : ConnId) (m : OutMsg)
  | close (c : ConnId)
  | resolve (caller : Nat) (data : Option String)
  | reject (caller : Nat) (err : String)
  | setTimeout (tid : Nat) (ms : Nat)
  | clearTimeout (tid : Nat)
  | log (s : String)
  deriving DecidableEq, Repr

/-- A successfully parsed inbound message, classified by its `type` field.
`auth` carries the optional `token` field; `response` carries the optional
`requestId`, the truthiness of `success`, the optional `data` payload and
the optional `error` string; `other` is any other `type`. -/
inductive Msg : Type where
  | auth (token : Option String)
  | response (requestId : Option String) (success : Bool)
      (data : Option String) (error : Option String)
  | other
  deriving DecidableEq, Repr

/-- Raw inbound data: either it parses (`JSON.parse` succeeds) to a
structured message or it is malformed (`JSON.parse` throws). -/
inductive Inbound : Type where
  | msg (m : Msg)
  | malformed
  deriving DecidableEq, Repr

/-- Predicate on parsed messages: is this the authentication message? -/
def isAuthMsg : Msg → Bool
  | .auth _ => true
  | _ => false

/-- JavaScript truthiness of an optional string field: `undefined` and
the empty string are falsy. -/
def truthyStr : Option String → Bool
  | none => false
  | some s => !(s = "")

/-- The value of `message.error || "Unknown error"`. -/
def errOr : Option String → String
  | none => "Unknown error"
  | some e => if e = "" then "Unknown error" else e

/-- Reads the `authenticated` closure variable of a connection. -/
def isAuthenticated (st : RelayState) (c : ConnId) : Bool :=
  match lookupA c st.conns with
  | some info => info.authenticated
  | none => false

/-- Reads the transport ready state of a connection (a socket that is not
tracked is not open). -/
def connReadyState (st : RelayState) (c : ConnId) : Nat :=
  match lookupA c st.conns with
  | some info => info.readyState
  | none => 3

/-- Sets the `authenticated` closure variable of connection `c` to true,
leaving every other connection's state unchanged. -/
def markAuthenticated (c : ConnId) : List (ConnId × ConnInfo) → List (ConnId × ConnInfo)
  | [] => []
  | (k, i) :: rest =>
    if k = c then (k, { i with authenticated := true }) :: rest
    else (k, i) :: markAuthenticated c rest

/-- The `ws.on("message")` handler for connection `c`, embedded from the
source: parse (malformed data is caught and logged), handle `auth`
(correct token marks the connection authenticated and installs it as
`extensionSocket`; wrong token answers with a failing `auth_response` and
closes the socket), reject any other message on an unauthenticated
connection with a "Not authenticated" error notice, and route a
`response` with a truthy `requestId` to the matching `pendingRequests`
entry: resolve on truthy `success` with `message.data`, reject otherwise
with `message.error || "Unknown error"`, in both cases clearing the
entry's timeout and deleting the entry. -/
def handleMessage (AUTH_TOKEN : String) (st : RelayState) (c : ConnId)
    (raw : Inbound) : RelayState × List Effect :=
  match raw with
  | .malformed => (st, [.log "Error parsing message from extension:"])
  | .msg m =>
    match m with
    | .auth token =>
      if token = some AUTH_TOKEN then
        ({ st with conns := markAuthenticated c st.conns, extensionSocket := some c },
         [.log "Received from extension:",
          .send c (.authResponse true "Authentication successful"),
          .log "Extension authenticated successfully"])
      else
        (st,
         [.log "Received from extension:",
          .send c (.authResponse false "Invalid authentication token"),
          .log "Authentication failed: invalid token",
          .close c])
    | m' =>
      if !isAuthenticated st c then
        (st,
         [.log "Received from extension:",
          .log "Rejecting message from unauthenticated connection",
          .send c (.errorMsg "Not authenticated")])
      else
        match m' with
        | .response requestId success data err =>
          if truthyStr requestId then
            match requestId with
            | some rid =>
              match lookupA rid st.pendingRequests with
              | some pending =>
                if success then
                  ({ st with pendingRequests := eraseA rid st.pendingRequests },
                   [.log "Received from extension:",
                    .clearTimeout pending.timeoutId,
                    .resolve pending.caller data])
                else
                  ({ st with pendingRequests := eraseA rid st.pendingRequests },
                   [.log "Received from extension:",
                    .clearTimeout pending.timeoutId,
                    .reject pending.caller (errOr err)])
              | none => (st, [.log "Received from extension:"])
            | none => (st, [.log "Received from extension:"])
          else (st, [.log "Received from extension:"])
        | _ => (st, [.log "Received from extension:"])

/-- The `ws.on("close")` handler: logs and clears `extensionSocket`,
unconditionally — it does not check that the closing socket is the
currently active one. -/
def handleClose (st : RelayState) (_c : ConnId) : RelayState × List Effect :=
  ({ st with extensionSocket := none }, [.log "Extension disconnected"])

/-- The `wss.on("connection")` handler: starts tracking connection `c`
with `authenticated = false` and an open transport. -/
def handleConnection (st : RelayState) (c : ConnId) : RelayState × List Effect :=
  ({ st with conns := setA c ⟨false, OPEN⟩ st.conns },
   [.log "Extension attempting to connect..."])

/-- Correlation-id generation: `Date.now()` and `Math.random()` results
joined by a dash, exactly `${Date.now()}-${Math.random()}`. -/
def mkRequestId (now : Nat) (rand : String) : String :=
  toString now ++ "-" ++ rand

/-- The default `timeout = 30000` parameter of `sendCommandToExtension`. -/
def DEFAULT_TIMEOUT : Nat := 30000

/-- The body of `sendCommandToExtension`, embedded from the source.
`caller` identifies the promise returned to the caller; `now` and `rand`
are the values observed from `Date.now()` and `Math.random()`; `tid` is
the timer handle returned by `setTimeout`.  With no active socket, or an
active socket whose transport is not OPEN, the promise is rejected with
"Extension not connected" and nothing else happens.  Otherwise an entry
is stored under the generated id (`Map.set`, overwriting any entry
already under that id), the timeout timer is armed, and the command
envelope is sent on the active socket. -/
def sendCommandToExtension (st : RelayState) (caller : Nat)
    (command : String) (params : String) (now : Nat) (rand : String)
    (tid : Nat) (timeout : Nat) : RelayState × List Effect :=
  match st.extensionSocket with
  | none => (st, [.reject caller "Extension not connected"])
  | some c =>
    if connReadyState st c ≠ OPEN then
      (st, [.reject caller "Extension not connected"])
    else
      let requestId := mkRequestId now rand
      ({ st with pendingRequests := setA requestId ⟨caller, tid⟩ st.pendingRequests },
       [.setTimeout tid timeout,
        .send c (.command requestId command params)])

/-- The timeout callback armed by `sendCommandToExtension` for the
request id it generated: if the entry is still present, delete it and
reject the captured caller with the RequestTimeout error; otherwise do
nothing at all. -/
def fireTimeout (st : RelayState) (requestId : String) (caller : Nat)
    (timeout : Nat) : RelayState × List Effect :=
  if (lookupA requestId st.pendingRequests).isSome then
    ({ st with pendingRequests := eraseA requestId st.pendingRequests },
     [.reject caller ("Request timeout after " ++ toString timeout ++ "ms")])
  else (st, [])

/-- Checks whether the character list `p` is an initial segment of `s`. -/
def charsStart : List Char → List Char → Bool
  | [], _ => true
  | _ :: _, [] => false
  | p :: ps, c :: cs => p = c && charsStart ps cs

/-- JavaScript `s.startsWith(p)` on strings. -/
def strStarts (s p : String) : Bool := charsStart p.data s.data

/-- Splits a character list at every occurrence of `sep`, the way
JavaScript `String.prototype.split` does (no group is dropped). -/
def splitCharsOn (sep : Char) : List Char → List (List Char)
  | [] => [[]]
  | c :: rest =>
    if c = sep then [] :: splitCharsOn sep rest
    else
      match splitCharsOn sep rest with
      | [] => [[c]]
      | g :: gs => (c :: g) :: gs

/-- JavaScript `s.split(sep)` on strings with a one-character separator. -/
def jsSplit (s : String) (sep : Char) : List String :=
  (splitCharsOn sep s.data).map (fun l => ⟨l⟩)

/-- The command-line token parse: the first argument starting with
`--token=` is split on `=` and its second field taken (JavaScript
`tokenArg.split('=')[1]`); with no such argument the configured token is
`null`. -/
def parseAuthToken (args : List String) : Option String :=
  match args.find? (fun a => strStarts a "--token=") with
  | some a => (jsSplit a '=').get? 1
  | none => none

/-- JavaScript falsiness of the parsed `AUTH_TOKEN`: `null` (no
`--token=` argument) and the empty string are falsy. -/
def tokenFalsy : Option String → Bool
  | none => true
  | some s => s = ""

/-- Outcome of the synchronous startup phase of the process.
`wssCreated` records that `new WebSocketServer({ port: WS_PORT })` was
constructed (it is, unconditionally, before the token check);
`exitCode` is set when `process.exit` ran during startup; `logs` are the
`console.error` lines emitted. -/
structure StartupResult where
  wssCreated : Bool
  exitCode : Option Nat
  logs : List String
  authTokenUsed : Option String
  deriving DecidableEq, Repr

/-- The synchronous startup phase, embedded from the source: parse
`AUTH_TOKEN` from the arguments, construct the WebSocketServer, then if
the token is falsy print the remediation message and exit with code 1. -/
def startup (args : List String) : StartupResult :=
  let AUTH_TOKEN := parseAuthToken args
  if tokenFalsy AUTH_TOKEN then
    { wssCreated := true
      exitCode := some 1
      logs := ["❌ ERROR: No authentication token provided!",
               "   Run: node generate-token.cjs to create a secure token",
               "   Then add it to your MCP config: --token=YOUR_TOKEN"]
      authTokenUsed := none }
  else
    { wssCreated := true, exitCode := none, logs := [], authTokenUsed := AUTH_TOKEN }

/-- Node's event loop runs connection-acceptance callbacks only after the
synchronous startup phase completes; `process.exit` during startup
terminates the process before any event-loop turn, so a startup that
exited never accepts a peer connection even though the server object was
constructed. -/
def canAcceptConnections (r : StartupResult) : Bool :=
  r.wssCreated && r.exitCode.isNone

theorem lookupA_setA_self {α β : Type} [DecidableEq α] (k : α) (v : β)
    (l : List (α × β)) : lookupA k (setA k v l) = some v := by
  induction l with
  | nil => simp [setA, lookupA]
  | cons p rest ih =>
    obtain ⟨k', v'⟩ := p
    by_cases h : k' = k
    · simp [setA, lookupA, h]
    · simp [setA, lookupA, h, ih]

theorem lookupA_setA_ne {α β : Type} [DecidableEq α] {k k' : α} (v : β)
    (l : List (α × β)) (h : k' ≠ k) :
    lookupA k' (setA k v l) = lookupA k' l := by
  induction l with
  | nil => simp [setA, lookupA, Ne.symm h]
  | cons p rest ih =>
    obtain ⟨k'', v''⟩ := p
    by_cases h2 : k'' = k
    · subst h2
      simp [setA, lookupA, Ne.symm h]
    · simp [setA, lookupA, h2, ih]

theorem lookupA_eraseA_ne {α β : Type} [DecidableEq α] {k k' : α}
    (l : List (α × β)) (h : k' ≠ k) :
    lookupA k' (eraseA k l) = lookupA k' l := by
  induction l with
  | nil => simp [eraseA]
  | cons p rest ih =>
    obtain ⟨k'', v''⟩ := p
    by_cases h2 : k'' = k
    · subst h2
      simp [eraseA, lookupA, Ne.symm h]
    · simp [eraseA, lookupA, h2, ih]

theorem lookupA_not_mem {α β : Type} [DecidableEq α] {k : α}
    (l : List (α × β)) (h : k ∉ l.map Prod.fst) :
    lookupA k l = none := by
  induction l with
  | nil => simp [lookupA]
  | cons p rest ih =>
    obtain ⟨k', v'⟩ := p
    simp only [List.map_cons, List.mem_cons] at h
    push_neg at h
    simp [lookupA, Ne.symm h.1, ih h.2]

theorem lookupA_eraseA_self {α β : Type} [DecidableEq α] (k : α)
    (l : List (α × β)) (h : (l.map Prod.fst).Nodup) :
    lookupA k (eraseA k l) = none := by
  induction l with
  | nil => simp [eraseA, lookupA]
  | cons p rest ih =>
    obtain ⟨k', v'⟩ := p
    simp only [List.map_cons, List.nodup_cons] at h
    by_cases h2 : k' = k
    · subst h2
      simpa [eraseA] using lookupA_not_mem rest h.1
    · simp [eraseA, lookupA, h2, ih h.2]

theorem lookupA_markAuthenticated_ne {c c' : ConnId}
    (l : List (ConnId × ConnInfo)) (h : c' ≠ c) :
    lookupA c' (markAuthenticated c l) = lookupA c' l := by
  induction l with
  | nil => simp [markAuthenticated]
  | cons p rest ih =>
    obtain ⟨k, i⟩ := p
    by_cases h2 : k = c
    · subst h2
      simp [markAuthenticated, lookupA, Ne.symm h]
    · simp [markAuthenticated, lookupA, h2, ih]

theorem lookupA_markAuthenticated_self {c : ConnId} {i : ConnInfo}
    (l : List (ConnId × ConnInfo)) (h : lookupA c l = some i) :
    lookupA c (markAuthenticated c l) = some { i with authenticated := true } := by
  induction l with
  | nil => simp [lookupA] at h
  | cons p rest ih =>
    obtain ⟨k, i'⟩ := p
    by_cases h2 : k = c
    · subst h2
      simp [lookupA] at h
      simp [markAuthenticated, lookupA, h]
    · simp [lookupA, h2] at h
      simp [markAuthenticated, lookupA, h2, ih h]

theorem truthyStr_of_ne {rid : String} (h : rid ≠ "") :
    truthyStr (some rid) = true := by
  simp [truthyStr, h]

/-- C1: processing an inbound reply envelope on an authenticated
connection, with the correlation table holding distinct ids, resolves
(success flag true, with the data payload) or rejects (success flag
false, with the error message) exactly the pending request whose id
equals the envelope's `requestId`, removes only that entry, clears only
that entry's timeout, and leaves every other pending request's entry
(continuation and timeout handle) unchanged — a statement about an
arbitrary table state, hence independent of the order in which replies
arrive relative to dispatch order. -/
theorem reply_resolves_exactly_matching_request (AUTH_TOKEN : String)
    (st : RelayState) (c : ConnId) (rid : String) (success : Bool)
    (data err : Option String) (entry : PendingEntry)
    (hauth : isAuthenticated st c = true)
    (hrid : rid ≠ "")
    (hfound : lookupA rid st.pendingRequests = some entry)
    (hnodup : (st.pendingRequests.map Prod.fst).Nodup) :
    handleMessage AUTH_TOKEN st c (.msg (.response (some rid) success data err)) =
      ({ st with pendingRequests := eraseA rid st.pendingRequests },
       [.log "Received from extension:",
        .clearTimeout entry.timeoutId,
        if success then .resolve entry.caller data
        else .reject entry.caller (errOr err)])
    ∧ lookupA rid (eraseA rid st.pendingRequests) = none
    ∧ (∀ rid', rid' ≠ rid →
        lookupA rid' (eraseA rid st.pendingRequests) = lookupA rid' st.pendingRequests) := by
  refine ⟨?_, lookupA_eraseA_self rid _ hnodup, fun rid' h => lookupA_eraseA_ne _ h⟩
  cases success <;>
    simp [handleMessage, hauth, truthyStr_of_ne hrid, hfound]

/-- Witness for C1: a two-entry table, a successful reply for id
"1-0.5" resolves caller 1 and leaves id "2-0.7" untouched. -/
theorem reply_resolves_exactly_matching_request_witness :
    isAuthenticated ⟨some 0, [(0, ⟨true, 1⟩)], [("1-0.5", ⟨1, 10⟩), ("2-0.7", ⟨2, 11⟩)]⟩ 0 = true
    ∧ ("1-0.5" : String) ≠ ""
    ∧ lookupA "1-0.5" ([("1-0.5", (⟨1, 10⟩ : PendingEntry)), ("2-0.7", ⟨2, 11⟩)]) = some ⟨1, 10⟩
    ∧ (handleMessage "secret" ⟨some 0, [(0, ⟨true, 1⟩)], [("1-0.5", ⟨1, 10⟩), ("2-0.7", ⟨2, 11⟩)]⟩ 0
        (.msg (.response (some "1-0.5") true (some "payload") none)) =
      (⟨some 0, [(0, ⟨true, 1⟩)], [("2-0.7", ⟨2, 11⟩)]⟩,
       [.log "Received from extension:", .clearTimeout 10, .resolve 1 (some "payload")])
      ∧ lookupA "1-0.5" (eraseA "1-0.5" ([("1-0.5", (⟨1, 10⟩ : PendingEntry)), ("2-0.7", ⟨2, 11⟩)])) = none
      ∧ (∀ rid', rid' ≠ "1-0.5" →
          lookupA rid' (eraseA "1-0.5" ([("1-0.5", (⟨1, 10⟩ : PendingEntry)), ("2-0.7", ⟨2, 11⟩)]))
            = lookupA rid' ([("1-0.5", (⟨1, 10⟩ : PendingEntry)), ("2-0.7", ⟨2, 11⟩)]))) := by
  refine ⟨by decide, by decide, by decide, ?_⟩
  have h := reply_resolves_exactly_matching_request "secret"
    ⟨some 0, [(0, ⟨true, 1⟩)], [("1-0.5", ⟨1, 10⟩), ("2-0.7", ⟨2, 11⟩)]⟩ 0
    "1-0.5" true (some "payload") none ⟨1, 10⟩
    (by decide) (by decide) (by decide) (by decide)
  simpa using h

theorem lookupA_markAuthenticated_map (c : ConnId)
    (l : List (ConnId × ConnInfo)) :
    lookupA c (markAuthenticated c l) =
      (lookupA c l).map (fun i => { i with authenticated := true }) := by
  induction l with
  | nil => simp [markAuthenticated, lookupA]
  | cons p rest ih =>
    obtain ⟨k, i⟩ := p
    by_cases h2 : k = c
    · simp [markAuthenticated, lookupA, h2]
    · simp [markAuthenticated, lookupA, h2, ih]

/-- C2: once the timeout callback for a dispatched command fires with its
entry still present, the dispatch is rejected with the RequestTimeout
error ("Request timeout after ...ms", the default timeout being
30000 ms) and the entry is removed; afterwards that same timeout callback
is a no-op, and a late reply envelope carrying the same `requestId`
(from any authenticated connection, any success flag) is a no-op as
well: it resolves nothing, rejects nothing, raises nothing, and leaves
the state unchanged. -/
theorem timeout_rejects_once_then_late_reply_noop (AUTH_TOKEN : String)
    (st : RelayState) (c : ConnId) (rid : String) (entry : PendingEntry)
    (timeout : Nat) (success : Bool) (data err : Option String)
    (hfound : lookupA rid st.pendingRequests = some entry)
    (hnodup : (st.pendingRequests.map Prod.fst).Nodup)
    (hauth : isAuthenticated st c = true) :
    fireTimeout st rid entry.caller timeout =
      ({ st with pendingRequests := eraseA rid st.pendingRequests },
       [.reject entry.caller ("Request timeout after " ++ toString timeout ++ "ms")])
    ∧ DEFAULT_TIMEOUT = 30000
    ∧ lookupA rid (eraseA rid st.pendingRequests) = none
    ∧ fireTimeout { st with pendingRequests := eraseA rid st.pendingRequests }
        rid entry.caller timeout
        = ({ st with pendingRequests := eraseA rid st.pendingRequests }, [])
    ∧ handleMessage AUTH_TOKEN { st with pendingRequests := eraseA rid st.pendingRequests }
        c (.msg (.response (some rid) success data err))
        = ({ st with pendingRequests := eraseA rid st.pendingRequests },
           [.log "Received from extension:"]) := by
  have hnone := lookupA_eraseA_self rid st.pendingRequests hnodup
  refine ⟨by simp [fireTimeout, hfound], rfl, hnone, by simp [fireTimeout, hnone], ?_⟩
  have hauth' : isAuthenticated
      { st with pendingRequests := eraseA rid st.pendingRequests } c = true := hauth
  by_cases hr : rid = ""
  · subst hr
    simp [handleMessage, hauth', truthyStr]
  · simp [handleMessage, hauth', truthyStr_of_ne hr, hnone]

/-- Witness for C2: a one-entry table; the timeout fires, removes the
entry, and both a second firing and a late successful reply for the same
id leave the state untouched. -/
theorem timeout_rejects_once_then_late_reply_noop_witness :
    lookupA "7-0.3" ([("7-0.3", (⟨1, 10⟩ : PendingEntry))]) = some ⟨1, 10⟩
    ∧ ((([("7-0.3", (⟨1, 10⟩ : PendingEntry))]).map Prod.fst).Nodup)
    ∧ isAuthenticated ⟨some 0, [(0, ⟨true, 1⟩)], [("7-0.3", ⟨1, 10⟩)]⟩ 0 = true
    ∧ fireTimeout ⟨some 0, [(0, ⟨true, 1⟩)], [("7-0.3", ⟨1, 10⟩)]⟩ "7-0.3" 1 30000 =
        (⟨some 0, [(0, ⟨true, 1⟩)], []⟩, [.reject 1 "Request timeout after 30000ms"]) := by
  refine ⟨by decide, by decide, by decide, ?_⟩
  have h := timeout_rejects_once_then_late_reply_noop "secret"
    ⟨some 0, [(0, ⟨true, 1⟩)], [("7-0.3", ⟨1, 10⟩)]⟩ 0 "7-0.3" ⟨1, 10⟩
    30000 true none none (by decide) (by decide) (by decide)
  have h1 := h.1
  simpa [eraseA] using h1

/-- C3 counterexample: connection 0 is authenticated and is the active
channel; connection 1 presents a wrong token, receives the failing
`auth_response` and is closed — and when connection 1's transport close
event then fires, the `ws.on("close")` handler clears `extensionSocket`
unconditionally, so the active-channel slot ends up `none` instead of
being left unchanged at `some 0`. -/
theorem failed_auth_close_clears_unrelated_active_channel :
    (handleMessage "secret" ⟨some 0, [(0, ⟨true, 1⟩), (1, ⟨false, 1⟩)], []⟩ 1
        (.msg (.auth (some "wrong")))).2 =
      [.log "Received from extension:",
       .send 1 (.authResponse false "Invalid authentication token"),
       .log "Authentication failed: invalid token",
       .close 1]
    ∧ ((handleClose (handleMessage "secret"
          ⟨some 0, [(0, ⟨true, 1⟩), (1, ⟨false, 1⟩)], []⟩ 1
          (.msg (.auth (some "wrong")))).1 1).1).extensionSocket = none
    ∧ (⟨some 0, [(0, ⟨true, 1⟩), (1, ⟨false, 1⟩)], []⟩ : RelayState).extensionSocket = some 0
    ∧ (none : Option ConnId) ≠ some 0 := by
  refine ⟨by decide, by decide, rfl, by decide⟩

/-- C3 amended: an auth message with the correct secret marks the
connection authenticated (when the connection is tracked) and installs
it as the active channel, silently superseding any previous one (no
close effect is emitted, so the old socket is not force-closed); an auth
message with a wrong token sends a failing `auth_response` and closes
the failing connection while the auth handling itself leaves the
active-channel slot unchanged — but the close handler that subsequently
runs for the closed connection clears the slot unconditionally, so the
slot ends up unset even when a different connection was the active
channel. -/
theorem auth_message_outcome_and_close_clears_slot (secret : String)
    (st : RelayState) (c : ConnId) (token : Option String) :
    handleMessage secret st c (.msg (.auth token)) =
      (if token = some secret then
        ({ st with conns := markAuthenticated c st.conns, extensionSocket := some c },
         [.log "Received from extension:",
          .send c (.authResponse true "Authentication successful"),
          .log "Extension authenticated successfully"])
       else
        (st,
         [.log "Received from extension:",
          .send c (.authResponse false "Invalid authentication token"),
          .log "Authentication failed: invalid token",
          .close c]))
    ∧ isAuthenticated
        { st with conns := markAuthenticated c st.conns, extensionSocket := some c } c
        = (lookupA c st.conns).isSome
    ∧ handleClose st c = ({ st with extensionSocket := none },
        [.log "Extension disconnected"]) := by
  refine ⟨?_, ?_, rfl⟩
  · by_cases h : token = some secret <;> simp [handleMessage, h]
  · show (match lookupA c (markAuthenticated c st.conns) with
      | some info => info.authenticated
      | none => false) = (lookupA c st.conns).isSome
    rw [lookupA_markAuthenticated_map]
    cases lookupA c st.conns <;> simp

/-- C4: a dispatch attempted with no active socket, or with an active
socket whose transport is not OPEN, is rejected immediately with the
"Extension not connected" error; the state is returned unchanged (no
correlation-table entry is created) and the effect list contains no send
and no timer. -/
theorem dispatch_without_channel_fails_immediately (st : RelayState)
    (caller : Nat) (command params : String) (now : Nat) (rand : String)
    (tid timeout : Nat)
    (h : ∀ c, st.extensionSocket = some c → connReadyState st c ≠ OPEN) :
    sendCommandToExtension st caller command params now rand tid timeout
      = (st, [.reject caller "Extension not connected"]) := by
  cases hs : st.extensionSocket with
  | none => simp [sendCommandToExtension, hs]
  | some c => simp [sendCommandToExtension, hs, h c hs]

/-- Witness for C4: no socket at all, and separately a socket whose
transport is closed, both fail with the not-connected rejection. -/
theorem dispatch_without_channel_fails_immediately_witness :
    (∀ c, (⟨none, [], []⟩ : RelayState).extensionSocket = some c →
      connReadyState ⟨none, [], []⟩ c ≠ OPEN)
    ∧ sendCommandToExtension ⟨none, [], []⟩ 1 "openPage" "noparams" 7 "0.1" 5 30000
        = (⟨none, [], []⟩, [.reject 1 "Extension not connected"])
    ∧ (∀ c, (⟨some 0, [(0, ⟨true, 3⟩)], []⟩ : RelayState).extensionSocket = some c →
      connReadyState ⟨some 0, [(0, ⟨true, 3⟩)], []⟩ c ≠ OPEN)
    ∧ sendCommandToExtension ⟨some 0, [(0, ⟨true, 3⟩)], []⟩ 1 "openPage" "noparams" 7 "0.1" 5 30000
        = (⟨some 0, [(0, ⟨true, 3⟩)], []⟩, [.reject 1 "Extension not connected"]) := by
  have h1 : ∀ c, (⟨none, [], []⟩ : RelayState).extensionSocket = some c →
      connReadyState ⟨none, [], []⟩ c ≠ OPEN := by
    intro c hc
    simp at hc
  have h2 : ∀ c, (⟨some 0, [(0, ⟨true, 3⟩)], []⟩ : RelayState).extensionSocket = some c →
      connReadyState ⟨some 0, [(0, ⟨true, 3⟩)], []⟩ c ≠ OPEN := by
    intro c hc
    simp only [Option.some.injEq] at hc
    subst hc
    decide
  exact ⟨h1,
    dispatch_without_channel_fails_immediately ⟨none, [], []⟩ 1 "openPage" "noparams" 7 "0.1" 5 30000 h1,
    h2,
    dispatch_without_channel_fails_immediately ⟨some 0, [(0, ⟨true, 3⟩)], []⟩ 1 "openPage" "noparams" 7 "0.1" 5 30000 h2⟩

/-- C5: a process started without a configured non-empty secret (no
`--token=` argument, or an empty token) exits fatally with code 1
(non-zero) after printing the human-readable remediation message, and —
because `process.exit` runs during the synchronous startup phase,
before the event loop can run any connection callback — such a process
never accepts a peer connection. -/
theorem missing_secret_is_fatal_startup (args : List String)
    (h : tokenFalsy (parseAuthToken args) = true) :
    (startup args).exitCode = some 1
    ∧ (1 : Nat) ≠ 0
    ∧ (startup args).logs =
        ["❌ ERROR: No authentication token provided!",
         "   Run: node generate-token.cjs to create a secure token",
         "   Then add it to your MCP config: --token=YOUR_TOKEN"]
    ∧ canAcceptConnections (startup args) = false := by
  refine ⟨?_, by decide, ?_, ?_⟩ <;>
    simp [startup, h, canAcceptConnections]

/-- Witness for C5: launched with an empty `--token=` argument the
process exits with code 1 and accepts no connection. -/
theorem missing_secret_is_fatal_startup_witness :
    tokenFalsy (parseAuthToken ["--token="]) = true
    ∧ ((startup ["--token="]).exitCode = some 1
      ∧ (1 : Nat) ≠ 0
      ∧ (startup ["--token="]).logs =
          ["❌ ERROR: No authentication token provided!",
           "   Run: node generate-token.cjs to create a secure token",
           "   Then add it to your MCP config: --token=YOUR_TOKEN"]
      ∧ canAcceptConnections (startup ["--token="]) = false) :=
  ⟨by decide, missing_secret_is_fatal_startup ["--token="] (by decide)⟩

/-- C6: any parsed message other than the auth message, arriving on a
connection that has not authenticated, is answered with the explicit
"Not authenticated" error notice on that same connection; the returned
state is exactly the input state (correlation table, every pending
entry, and the active-channel slot unchanged) and no close effect is
emitted, so the connection stays open. -/
theorem unauthenticated_non_auth_message_rejected (AUTH_TOKEN : String)
    (st : RelayState) (c : ConnId) (m : Msg)
    (hnoauth : isAuthenticated st c = false)
    (hm : isAuthMsg m = false) :
    handleMessage AUTH_TOKEN st c (.msg m) =
      (st,
       [.log "Received from extension:",
        .log "Rejecting message from unauthenticated connection",
        .send c (.errorMsg "Not authenticated")]) := by
  cases m with
  | auth token => simp [isAuthMsg] at hm
  | response requestId success data err => simp [handleMessage, hnoauth]
  | other => simp [handleMessage, hnoauth]

/-- Witness for C6: a reply envelope sent before authenticating is
answered with the not-authenticated notice and mutates nothing, even
though its id matches a live pending entry. -/
theorem unauthenticated_non_auth_message_rejected_witness :
    isAuthenticated ⟨some 0, [(0, ⟨true, 1⟩), (1, ⟨false, 1⟩)], [("7-0.3", ⟨1, 10⟩)]⟩ 1 = false
    ∧ isAuthMsg (.response (some "7-0.3") true none none) = false
    ∧ handleMessage "secret"
        ⟨some 0, [(0, ⟨true, 1⟩), (1, ⟨false, 1⟩)], [("7-0.3", ⟨1, 10⟩)]⟩ 1
        (.msg (.response (some "7-0.3") true none none)) =
      (⟨some 0, [(0, ⟨true, 1⟩), (1, ⟨false, 1⟩)], [("7-0.3", ⟨1, 10⟩)]⟩,
       [.log "Received from extension:",
        .log "Rejecting message from unauthenticated connection",
        .send 1 (.errorMsg "Not authenticated")]) :=
  ⟨by decide, by decide,
    unauthenticated_non_auth_message_rejected "secret"
      ⟨some 0, [(0, ⟨true, 1⟩), (1, ⟨false, 1⟩)], [("7-0.3", ⟨1, 10⟩)]⟩ 1
      (.response (some "7-0.3") true none none) (by decide) (by decide)⟩

/-- C7: the transport close event for the currently active channel
clears the active-channel slot, leaves every correlation-table entry
(and every other component of the state) unchanged, and emits no
resolve and no reject effect — pending dispatches can only fail later
through their own timeouts. -/
theorem close_of_active_channel_clears_slot_only (st : RelayState) (c : ConnId)
    (hactive : st.extensionSocket = some c) :
    handleClose st c = ({ st with extensionSocket := none },
      [.log "Extension disconnected"])
    ∧ (handleClose st c).1.pendingRequests = st.pendingRequests
    ∧ (handleClose st c).1.conns = st.conns
    ∧ (∀ e ∈ (handleClose st c).2,
        (∀ caller data, e ≠ .resolve caller data) ∧ (∀ caller err, e ≠ .reject caller err)) := by
  refine ⟨rfl, rfl, rfl, ?_⟩
  intro e he
  simp [handleClose] at he
  subst he
  exact ⟨fun caller data => by simp, fun caller err => by simp⟩

/-- Witness for C7: closing the active connection 0 empties the slot and
keeps the pending entry alive. -/
theorem close_of_active_channel_clears_slot_only_witness :
    (⟨some 0, [(0, ⟨true, 1⟩)], [("7-0.3", ⟨1, 10⟩)]⟩ : RelayState).extensionSocket = some 0
    ∧ handleClose ⟨some 0, [(0, ⟨true, 1⟩)], [("7-0.3", ⟨1, 10⟩)]⟩ 0 =
        (⟨none, [(0, ⟨true, 1⟩)], [("7-0.3", ⟨1, 10⟩)]⟩, [.log "Extension disconnected"]) := by
  refine ⟨by decide, ?_⟩
  have h := (close_of_active_channel_clears_slot_only
    ⟨some 0, [(0, ⟨true, 1⟩)], [("7-0.3", ⟨1, 10⟩)]⟩ 0 (by decide)).1
  simpa using h

/-- C8 counterexample: two dispatches that observe the same `Date.now()`
value (1000) and the same `Math.random()` value ("0.5") generate the
same correlation id "1000-0.5" while the first entry is still live —
the second `Map.set` overwrites the live entry of caller 1 with caller
2's entry, so ids can collide and be reused while live. -/
theorem colliding_clock_and_random_overwrites_live_entry :
    (sendCommandToExtension ⟨some 0, [(0, ⟨true, 1⟩)], []⟩ 1 "openPage" "noparams"
        1000 "0.5" 10 30000).1.pendingRequests = [("1000-0.5", ⟨1, 10⟩)]
    ∧ (sendCommandToExtension
        (sendCommandToExtension ⟨some 0, [(0, ⟨true, 1⟩)], []⟩ 1 "openPage" "noparams"
          1000 "0.5" 10 30000).1
        2 "listTabs" "noparams" 1000 "0.5" 11 30000).1.pendingRequests = [("1000-0.5", ⟨2, 11⟩)]
    ∧ ((⟨1, 10⟩ : PendingEntry) ≠ ⟨2, 11⟩) := by
  refine ⟨by decide, by decide, by decide⟩

/-- C8 amended: every correlation id is the `Date.now()` value and the
`Math.random()` value joined by a dash; two concurrently outstanding
dispatches receive distinct ids — and then both entries stay live
independently — whenever the observed (time, random) pairs yield
distinct strings, but the code does not enforce that distinctness: with
identical observations the ids collide and the newer registration
overwrites the older live entry. -/
theorem request_id_combines_time_and_random (st : RelayState) (c : ConnId)
    (caller1 caller2 : Nat) (cmd1 p1 cmd2 p2 : String)
    (now1 now2 : Nat) (rand1 rand2 : String) (tid1 tid2 t1 t2 : Nat)
    (hsock : st.extensionSocket = some c)
    (hopen : connReadyState st c = OPEN)
    (hne : mkRequestId now1 rand1 ≠ mkRequestId now2 rand2) :
    mkRequestId now1 rand1 = toString now1 ++ "-" ++ rand1
    ∧ lookupA (mkRequestId now1 rand1)
        (sendCommandToExtension
          (sendCommandToExtension st caller1 cmd1 p1 now1 rand1 tid1 t1).1
          caller2 cmd2 p2 now2 rand2 tid2 t2).1.pendingRequests = some ⟨caller1, tid1⟩
    ∧ lookupA (mkRequestId now2 rand2)
        (sendCommandToExtension
          (sendCommandToExtension st caller1 cmd1 p1 now1 rand1 tid1 t1).1
          caller2 cmd2 p2 now2 rand2 tid2 t2).1.pendingRequests = some ⟨caller2, tid2⟩ := by
  have h1 : sendCommandToExtension st caller1 cmd1 p1 now1 rand1 tid1 t1 =
      ({ st with pendingRequests := setA (mkRequestId now1 rand1) ⟨caller1, tid1⟩
                                      st.pendingRequests },
       [.setTimeout tid1 t1,
        .send c (.command (mkRequestId now1 rand1) cmd1 p1)]) := by
    simp [sendCommandToExtension, hsock, hopen]
  have hsock' : ({ st with pendingRequests := setA (mkRequestId now1 rand1) ⟨caller1, tid1⟩
                                                st.pendingRequests } :
      RelayState).extensionSocket = some c := hsock
  have hopen' : connReadyState
      { st with pendingRequests := setA (mkRequestId now1 rand1) ⟨caller1, tid1⟩
                                     st.pendingRequests } c = OPEN := hopen
  have h2 : sendCommandToExtension
      { st with pendingRequests := setA (mkRequestId now1 rand1) ⟨caller1, tid1⟩
                                     st.pendingRequests }
      caller2 cmd2 p2 now2 rand2 tid2 t2 =
      ({ st with pendingRequests := setA (mkRequestId now2 rand2) ⟨caller2, tid2⟩
                                      (setA (mkRequestId now1 rand1) ⟨caller1, tid1⟩
                                        st.pendingRequests) },
       [.setTimeout tid2 t2,
        .send c (.command (mkRequestId now2 rand2) cmd2 p2)]) := by
    simp [sendCommandToExtension, hsock, hsock', hopen, hopen', connReadyState]
    exact hopen
  rw [h1, h2]
  refine ⟨rfl, ?_, lookupA_setA_self _ _ _⟩
  rw [lookupA_setA_ne _ _ hne, lookupA_setA_self]

/-- Witness for C8 amended: distinct clock observations 1000 and 1001
with the same random value give distinct ids and two live entries. -/
theorem request_id_combines_time_and_random_witness :
    (⟨some 0, [(0, ⟨true, 1⟩)], []⟩ : RelayState).extensionSocket = some 0
    ∧ connReadyState ⟨some 0, [(0, ⟨true, 1⟩)], []⟩ 0 = OPEN
    ∧ mkRequestId 1000 "0.5" ≠ mkRequestId 1001 "0.5"
    ∧ lookupA (mkRequestId 1000 "0.5")
        (sendCommandToExtension
          (sendCommandToExtension ⟨some 0, [(0, ⟨true, 1⟩)], []⟩ 1 "openPage" "noparams"
            1000 "0.5" 10 30000).1
          2 "listTabs" "noparams" 1001 "0.5" 11 30000).1.pendingRequests = some ⟨1, 10⟩
    ∧ lookupA (mkRequestId 1001 "0.5")
        (sendCommandToExtension
          (sendCommandToExtension ⟨some 0, [(0, ⟨true, 1⟩)], []⟩ 1 "openPage" "noparams"
            1000 "0.5" 10 30000).1
          2 "listTabs" "noparams" 1001 "0.5" 11 30000).1.pendingRequests = some ⟨2, 11⟩ := by
  have h := request_id_combines_time_and_random
    ⟨some 0, [(0, ⟨true, 1⟩)], []⟩ 0 1 2 "openPage" "noparams" "listTabs" "noparams"
    1000 1001 "0.5" "0.5" 10 11 30000 30000 rfl (by decide) (by decide)
  exact ⟨rfl, by decide, by decide, h.2.1, h.2.2⟩

/-- C9: an inbound payload that cannot be parsed (`JSON.parse` throws)
is caught by the handler's try/catch: the error is logged and the
payload discarded; the returned state is exactly the input state (no
dispatch state changes), the effect list contains no close (connection
preserved) and nothing else — the handler returns normally, so a single
malformed peer message never terminates the relay. -/
theorem malformed_payload_logged_and_discarded (AUTH_TOKEN : String)
    (st : RelayState) (c : ConnId) :
    handleMessage AUTH_TOKEN st c .malformed =
      (st, [.log "Error parsing message from extension:"]) := rfl

/-- C10: the `authenticated` flag is per-connection closure state: after
connection B authenticates with the correct secret and supersedes A as
the active channel, the old connection A is still authenticated, and a
reply envelope arriving on A is still processed — it resolves the
matching pending request — even though commands are no longer addressed
to A. -/
theorem superseded_connection_still_processes_replies (secret : String)
    (st : RelayState) (A B : ConnId) (rid : String) (entry : PendingEntry)
    (data : Option String)
    (hAauth : isAuthenticated st A = true)
    (hAB : A ≠ B)
    (hrid : rid ≠ "")
    (hfound : lookupA rid st.pendingRequests = some entry) :
    (handleMessage secret st B (.msg (.auth (some secret)))).1
      = { st with conns := markAuthenticated B st.conns, extensionSocket := some B }
    ∧ ({ st with conns := markAuthenticated B st.conns,
                 extensionSocket := some B } : RelayState).extensionSocket = some B
    ∧ isAuthenticated
        { st with conns := markAuthenticated B st.conns, extensionSocket := some B } A = true
    ∧ handleMessage secret
        { st with conns := markAuthenticated B st.conns, extensionSocket := some B } A
        (.msg (.response (some rid) true data none)) =
      ({ st with conns := markAuthenticated B st.conns,
                 extensionSocket := some B,
                 pendingRequests := eraseA rid st.pendingRequests },
       [.log "Received from extension:",
        .clearTimeout entry.timeoutId,
        .resolve entry.caller data]) := by
  have hA : isAuthenticated
      { st with conns := markAuthenticated B st.conns, extensionSocket := some B } A = true := by
    show (match lookupA A (markAuthenticated B st.conns) with
      | some info => info.authenticated
      | none => false) = true
    rw [lookupA_markAuthenticated_ne st.conns hAB]
    exact hAauth
  refine ⟨by simp [handleMessage], rfl, hA, ?_⟩
  simp [handleMessage, hA, truthyStr_of_ne hrid, hfound]

/-- Witness for C10: connection 0 authenticated first and dispatched a
request; connection 1 then authenticated and became the active channel;
a reply on the superseded connection 0 still resolves the request. -/
theorem superseded_connection_still_processes_replies_witness :
    isAuthenticated ⟨some 0, [(0, ⟨true, 1⟩), (1, ⟨false, 1⟩)], [("7-0.3", ⟨1, 10⟩)]⟩ 0 = true
    ∧ (0 : ConnId) ≠ 1
    ∧ ("7-0.3" : String) ≠ ""
    ∧ lookupA "7-0.3" ([("7-0.3", (⟨1, 10⟩ : PendingEntry))]) = some ⟨1, 10⟩
    ∧ handleMessage "secret"
        ⟨some 1, [(0, ⟨true, 1⟩), (1, ⟨true, 1⟩)], [("7-0.3", ⟨1, 10⟩)]⟩ 0
        (.msg (.response (some "7-0.3") true (some "ok") none)) =
      (⟨some 1, [(0, ⟨true, 1⟩), (1, ⟨true, 1⟩)], []⟩,
       [.log "Received from extension:", .clearTimeout 10, .resolve 1 (some "ok")]) := by
  have h := superseded_connection_still_processes_replies "secret"
    ⟨some 0, [(0, ⟨true, 1⟩), (1, ⟨false, 1⟩)], [("7-0.3", ⟨1, 10⟩)]⟩ 0 1
    "7-0.3" ⟨1, 10⟩ (some "ok") (by decide) (by decide) (by decide) (by decide)
  refine ⟨by decide, by decide, by decide, by decide, ?_⟩
  have h4 := h.2.2.2
  simpa [markAuthenticated, eraseA] using h4

end Bridge
